import Mathlib

/-!
Verification of the ai_planner calendar application.

This file shallowly embeds the backend of the repository:
the Outlook ↔ canonical (Google-shaped) event translator and providers
(`backend/providers/CalendarProvider.js`, `GoogleCalendarProvider`),
the chat tool-dispatch loop of `backend/server.js`, the database helpers of
`backend/db/connection.js`, and the AES key-encryption glue of
`backend/utils/encryption.js`.  External services (Google Calendar API,
Microsoft Graph, the LLM endpoint, node's cipher primitives) are modelled as
oracle parameters; everything the repository itself computes is embedded as
executable Lean definitions.  JavaScript falsiness on strings and numbers
(`undefined` and `''`/`0` are falsy) is made explicit via `Option` together
with emptiness / zero tests.
-/

namespace AiPlanner

/-- JS `a || b` on two possibly-undefined strings: `a` is taken unless it is
`undefined` or `''`. -/
def jsOr (a b : Option String) : Option String :=
  match a with
  | some s => if s = "" then b else some s
  | none => b

/-- JS `a || d` where the fallback `d` is a string constant, so the result is
always a string. -/
def jsOrStr (a : Option String) (d : String) : String :=
  match a with
  | some s => if s = "" then d else s
  | none => d

/-! ## Event shapes

`GEvent` is the canonical (Google-shaped) event; the `O…` structures are the
Microsoft Graph (Outlook) event shape, exactly the fields the translator in
`CalendarProvider.js` touches. -/

structure GDateTime where
  dateTime : Option String
  date : Option String
  timeZone : Option String
deriving DecidableEq, Repr

structure GAttendee where
  email : Option String
  displayName : Option String
  responseStatus : Option String
deriving DecidableEq, Repr

structure GEvent where
  id : Option String
  summary : Option String
  description : Option String
  start : Option GDateTime
  end_ : Option GDateTime
  location : Option String
  attendees : Option (List GAttendee)
  htmlLink : Option String
deriving DecidableEq, Repr

structure OBody where
  contentType : String
  content : String
deriving DecidableEq, Repr

structure ODateTime where
  dateTime : Option String
  timeZone : Option String
deriving DecidableEq, Repr

structure OLocation where
  displayName : String
deriving DecidableEq, Repr

structure OEmailAddress where
  address : Option String
  name : Option String
deriving DecidableEq, Repr

structure OStatus where
  response : Option String
deriving DecidableEq, Repr

structure OAttendee where
  emailAddress : Option OEmailAddress
  status : Option OStatus
  type_ : Option String
deriving DecidableEq, Repr

structure OEvent where
  id : Option String
  subject : Option String
  body : Option OBody
  start : Option ODateTime
  end_ : Option ODateTime
  location : Option OLocation
  attendees : Option (List OAttendee)
  webLink : Option String
deriving DecidableEq, Repr

/-- Embeds `OutlookCalendarProvider._convertOutlookResponseStatus`: fixed lookup
table, `undefined`/unknown values default to `needsAction`. -/
def convertOutlookResponseStatus (outlookStatus : Option String) : String :=
  match outlookStatus with
  | some "accepted" => "accepted"
  | some "declined" => "declined"
  | some "tentativelyAccepted" => "tentative"
  | some "notResponded" => "needsAction"
  | some "organizer" => "accepted"
  | _ => "needsAction"

/-- Embeds `OutlookCalendarProvider._convertOutlookColor`: fixed palette table with
default `#039BE5`. -/
def convertOutlookColor (outlookColor : Option String) : String :=
  match outlookColor with
  | some "lightBlue" => "#4A8CF7"
  | some "lightGreen" => "#0B8043"
  | some "lightOrange" => "#F6BF26"
  | some "lightGray" => "#A8A8A8"
  | some "lightYellow" => "#FFD800"
  | some "lightTeal" => "#039BE5"
  | some "lightPink" => "#E67C73"
  | some "lightBrown" => "#8E6C42"
  | some "lightRed" => "#D50000"
  | some "auto" => "#039BE5"
  | _ => "#039BE5"

/-- Embeds `OutlookCalendarProvider._transformGoogleEventToOutlook`. -/
def transformGoogleEventToOutlook (googleEvent : GEvent) : OEvent :=
  { id := none
    subject := googleEvent.summary
    body := some { contentType := "HTML"
                   content := jsOrStr googleEvent.description "" }
    start := some { dateTime := jsOr (googleEvent.start.bind (·.dateTime))
                      (googleEvent.start.bind (·.date))
                    timeZone := some (jsOrStr (googleEvent.start.bind (·.timeZone)) "UTC") }
    end_ := some { dateTime := jsOr (googleEvent.end_.bind (·.dateTime))
                     (googleEvent.end_.bind (·.date))
                   timeZone := some (jsOrStr (googleEvent.end_.bind (·.timeZone)) "UTC") }
    location := match googleEvent.location with
      | some l => if l = "" then none else some { displayName := l }
      | none => none
    attendees := match googleEvent.attendees with
      | some as =>
        if as.length > 0 then
          some (as.map fun attendee =>
            { emailAddress := some { address := attendee.email
                                     name := jsOr attendee.displayName attendee.email }
              status := none
              type_ := some "required" })
        else none
      | none => none
    webLink := none }

/-- Embeds `OutlookCalendarProvider._transformOutlookEventToGoogle`. -/
def transformOutlookEventToGoogle (outlookEvent : OEvent) : GEvent :=
  { id := outlookEvent.id
    summary := outlookEvent.subject
    description := some (jsOrStr (outlookEvent.body.map (·.content)) "")
    start := some { dateTime := outlookEvent.start.bind (·.dateTime)
                    date := none
                    timeZone := some (jsOrStr (outlookEvent.start.bind (·.timeZone)) "UTC") }
    end_ := some { dateTime := outlookEvent.end_.bind (·.dateTime)
                   date := none
                   timeZone := some (jsOrStr (outlookEvent.end_.bind (·.timeZone)) "UTC") }
    location := some (jsOrStr (outlookEvent.location.map (·.displayName)) "")
    attendees := some ((outlookEvent.attendees.getD []).map fun attendee =>
      { email := attendee.emailAddress.bind (·.address)
        displayName := attendee.emailAddress.bind (·.name)
        responseStatus := some (convertOutlookResponseStatus
          (attendee.status.bind (·.response))) })
    htmlLink := outlookEvent.webLink }

/-! ## C1: canonical → Outlook → canonical round trip -/

/-- C1 (counterexample): the claim quantifies over *every* canonical event,
but an all-day event — `start`/`end` given as `{date}` — does not round-trip:
`_transformGoogleEventToOutlook` folds `date` into `dateTime` and the way
back always produces a `{dateTime, timeZone}` pair, so `start` changes shape. -/
theorem c1_roundtrip_counterexample :
    (transformOutlookEventToGoogle (transformGoogleEventToOutlook
      { id := none
        summary := some "Holiday"
        description := some ""
        start := some { dateTime := none, date := some "2024-05-01", timeZone := none }
        end_ := some { dateTime := none, date := some "2024-05-02", timeZone := none }
        location := some ""
        attendees := none
        htmlLink := none })).start ≠
      some { dateTime := none, date := some "2024-05-01", timeZone := none } := by
  decide

/-- C1 (amended): for every canonical event whose `start` and `end` are timed —
a non-empty `dateTime`, no `date` field, and a non-empty `timeZone` — and whose
`description` and `location` fields are present strings, the canonical →
Outlook → canonical round trip preserves `summary`, `description`, `start`,
`end` and `location` exactly. -/
theorem c1_roundtrip_timed_events (g : GEvent)
    (dt1 tz1 dt2 tz2 d l : String)
    (hs : g.start = some { dateTime := some dt1, date := none, timeZone := some tz1 })
    (he : g.end_ = some { dateTime := some dt2, date := none, timeZone := some tz2 })
    (hdt1 : dt1 ≠ "") (htz1 : tz1 ≠ "") (hdt2 : dt2 ≠ "") (htz2 : tz2 ≠ "")
    (hd : g.description = some d) (hl : g.location = some l) :
    (transformOutlookEventToGoogle (transformGoogleEventToOutlook g)).summary = g.summary ∧
    (transformOutlookEventToGoogle (transformGoogleEventToOutlook g)).description = g.description ∧
    (transformOutlookEventToGoogle (transformGoogleEventToOutlook g)).start = g.start ∧
    (transformOutlookEventToGoogle (transformGoogleEventToOutlook g)).end_ = g.end_ ∧
    (transformOutlookEventToGoogle (transformGoogleEventToOutlook g)).location = g.location := by
  refine ⟨rfl, ?_, ?_, ?_, ?_⟩
  · simp only [transformOutlookEventToGoogle, transformGoogleEventToOutlook, hd]
    by_cases hde : d = "" <;> simp [jsOrStr, hde]
  · simp only [transformOutlookEventToGoogle, transformGoogleEventToOutlook, hs]
    simp [jsOr, jsOrStr, hdt1, htz1]
  · simp only [transformOutlookEventToGoogle, transformGoogleEventToOutlook, he]
    simp [jsOr, jsOrStr, hdt2, htz2]
  · simp only [transformOutlookEventToGoogle, transformGoogleEventToOutlook, hl]
    by_cases hle : l = "" <;> simp [jsOrStr, hle]

/-- C1 (witness): the amended round-trip theorem at a concrete timed event. -/
theorem c1_roundtrip_timed_events_witness :
    (transformOutlookEventToGoogle (transformGoogleEventToOutlook
      { id := some "ev1"
        summary := some "Standup"
        description := some "daily sync"
        start := some { dateTime := some "2024-05-01T09:00:00", date := none,
                        timeZone := some "Europe/Berlin" }
        end_ := some { dateTime := some "2024-05-01T09:15:00", date := none,
                       timeZone := some "Europe/Berlin" }
        location := some "Room 1"
        attendees := none
        htmlLink := none })).start =
      some { dateTime := some "2024-05-01T09:00:00", date := none,
             timeZone := some "Europe/Berlin" } := by
  have h := c1_roundtrip_timed_events
    { id := some "ev1"
      summary := some "Standup"
      description := some "daily sync"
      start := some { dateTime := some "2024-05-01T09:00:00", date := none,
                      timeZone := some "Europe/Berlin" }
      end_ := some { dateTime := some "2024-05-01T09:15:00", date := none,
                     timeZone := some "Europe/Berlin" }
      location := some "Room 1"
      attendees := none
      htmlLink := none }
    "2024-05-01T09:00:00" "Europe/Berlin" "2024-05-01T09:15:00" "Europe/Berlin"
    "daily sync" "Room 1" rfl rfl (by decide) (by decide) (by decide) (by decide)
    rfl rfl
  exact h.2.2.1

/-! ## Calendar provider operations

Each provider method wraps its underlying API call (modelled as an
`Except String …` oracle argument) in `try/catch`, re-throwing failures with
the method's fixed literal message.  Successful responses are post-processed
exactly as the source does. -/

structure Calendar where
  id : String
  summary : String
  backgroundColor : String
  accessRole : String
  primary : Bool
deriving DecidableEq, Repr

/-- Raw calendar object from Microsoft Graph `/me/calendars`. -/
structure OCalendarRaw where
  id : String
  name : String
  color : Option String
  canEdit : Bool
  isDefaultCalendar : Option Bool
deriving DecidableEq, Repr

/-- Embeds `GoogleCalendarProvider.listCalendars`: `response.data.items || []`. -/
def googleListCalendars {α : Type} (api : Except String (Option (List α))) :
    Except String (List α) :=
  match api with
  | .ok items => .ok (items.getD [])
  | .error _ => .error "Failed to fetch calendars from Google"

/-- Embeds `GoogleCalendarProvider.getEvents`: `response.data.items || []`. -/
def googleGetEvents {α : Type} (api : Except String (Option (List α))) :
    Except String (List α) :=
  match api with
  | .ok items => .ok (items.getD [])
  | .error _ => .error "Failed to fetch events from Google Calendar"

/-- Embeds `GoogleCalendarProvider.createEvent`: returns `response.data`. -/
def googleCreateEvent {α : Type} (api : Except String α) : Except String α :=
  match api with
  | .ok data => .ok data
  | .error _ => .error "Failed to create event in Google Calendar"

/-- Embeds `GoogleCalendarProvider.updateEvent`: returns `response.data`. -/
def googleUpdateEvent {α : Type} (api : Except String α) : Except String α :=
  match api with
  | .ok data => .ok data
  | .error _ => .error "Failed to update event in Google Calendar"

/-- Embeds `GoogleCalendarProvider.deleteEvent`. -/
def googleDeleteEvent (api : Except String Unit) : Except String Unit :=
  match api with
  | .ok _ => .ok ()
  | .error _ => .error "Failed to delete event from Google Calendar"

/-- Embeds `OutlookCalendarProvider.listCalendars`: maps Graph calendars to the
Google-shaped `Calendar`. -/
def outlookListCalendars (api : Except String (Option (List OCalendarRaw))) :
    Except String (List Calendar) :=
  match api with
  | .ok value =>
    .ok ((value.getD []).map fun calendar =>
      { id := calendar.id
        summary := calendar.name
        backgroundColor := convertOutlookColor calendar.color
        accessRole := if calendar.canEdit then "owner" else "reader"
        primary := calendar.isDefaultCalendar.getD false })
  | .error _ => .error "Failed to fetch calendars from Outlook"

/-- Embeds `OutlookCalendarProvider.getEvents`: maps Graph events through
`_transformOutlookEventToGoogle`. -/
def outlookGetEvents (api : Except String (Option (List OEvent))) :
    Except String (List GEvent) :=
  match api with
  | .ok value => .ok ((value.getD []).map transformOutlookEventToGoogle)
  | .error _ => .error "Failed to fetch events from Outlook Calendar"

/-- Embeds `OutlookCalendarProvider.createEvent`: transforms the canonical event to
the Outlook shape, posts it, and transforms the response back. -/
def outlookCreateEvent (event : GEvent)
    (api : OEvent → Except String OEvent) : Except String GEvent :=
  match api (transformGoogleEventToOutlook event) with
  | .ok response => .ok (transformOutlookEventToGoogle response)
  | .error _ => .error "Failed to create event in Outlook Calendar"

/-- Embeds `OutlookCalendarProvider.updateEvent`. -/
def outlookUpdateEvent (event : GEvent)
    (api : OEvent → Except String OEvent) : Except String GEvent :=
  match api (transformGoogleEventToOutlook event) with
  | .ok response => .ok (transformOutlookEventToGoogle response)
  | .error _ => .error "Failed to update event in Outlook Calendar"

/-- Embeds `OutlookCalendarProvider.deleteEvent`. -/
def outlookDeleteEvent (api : Except String Unit) : Except String Unit :=
  match api with
  | .ok _ => .ok ()
  | .error _ => .error "Failed to delete event from Outlook Calendar"

/-! ## Token refresh (`refreshTokenIfNeeded`)

Timestamps are milliseconds as `Int` (JS numbers).  The stored expiry is an
`Option Int`; the source guards with JS truthiness
(`tokens.expiry_date && …`), under which both an absent and a zero expiry
skip the refresh. -/

structure Tokens where
  access_token : String
  refresh_token : Option String
  expiry : Option Int
deriving DecidableEq, Repr

/-- Response of `msalClient.acquireTokenByRefreshToken`. -/
structure OutlookTokenResponse where
  accessToken : String
  refreshToken : Option String
  expiresOn : Int
deriving DecidableEq, Repr

/-- Guard of `GoogleCalendarProvider.refreshTokenIfNeeded`:
`tokens.expiry_date && tokens.expiry_date < Date.now() + 60000`. -/
def googleRefreshGuard (now : Int) (tokens : Tokens) : Bool :=
  match tokens.expiry with
  | some d => decide (d ≠ 0) && decide (d < now + 60000)
  | none => false

/-- Embeds `GoogleCalendarProvider.refreshTokenIfNeeded`.  The OAuth client's
`refreshAccessToken` is the oracle `api`; the returned `Bool` records whether
a refresh request was issued. -/
def googleRefreshTokenIfNeeded (now : Int) (tokens : Tokens)
    (api : Except String Tokens) : Except String (Tokens × Bool) :=
  if googleRefreshGuard now tokens then
    match api with
    | .ok credentials => .ok (credentials, true)
    | .error _ => .error "Failed to refresh Google OAuth token"
  else
    .ok (tokens, false)

/-- Guard of `OutlookCalendarProvider.refreshTokenIfNeeded`:
`this.tokens.expires_at && this.tokens.expires_at < Date.now() + 300000`. -/
def outlookRefreshGuard (now : Int) (tokens : Tokens) : Bool :=
  match tokens.expiry with
  | some d => decide (d ≠ 0) && decide (d < now + 300000)
  | none => false

/-- Embeds `OutlookCalendarProvider.refreshTokenIfNeeded`: on refresh, rebuilds the
token set with `expires_at = Date.now() + (response.expiresOn.getTime() -
Date.now())` and `refresh_token = response.refreshToken ||
this.tokens.refresh_token`. -/
def outlookRefreshTokenIfNeeded (now : Int) (tokens : Tokens)
    (api : Except String OutlookTokenResponse) : Except String (Tokens × Bool) :=
  if outlookRefreshGuard now tokens then
    match api with
    | .ok response =>
      .ok ({ access_token := response.accessToken
             refresh_token := jsOr response.refreshToken tokens.refresh_token
             expiry := some (now + (response.expiresOn - now)) }, true)
    | .error _ => .error "Failed to refresh Outlook OAuth token"
  else
    .ok (tokens, false)

/-! ## C6: refresh lead windows -/

/-- C6 (counterexample): the claim asserts a refresh happens *exactly* when
the stored expiry is within the lead window of the current time.  A stored
expiry of `0` (the epoch) is within any window of `now = 1000000`, yet due to
the JS truthiness guard (`tokens.expiry_date && …`) the Google provider
returns the token set unchanged and issues no refresh request. -/
theorem c6_refresh_counterexample :
    googleRefreshTokenIfNeeded 1000000
        { access_token := "a", refresh_token := some "r", expiry := some 0 }
        (.ok { access_token := "b", refresh_token := some "r", expiry := some 9999999 }) =
      .ok ({ access_token := "a", refresh_token := some "r", expiry := some 0 }, false) ∧
    (0 : Int) < 1000000 + 60000 := by
  constructor
  · rfl
  · decide

/-- C6 (amended): `refreshTokenIfNeeded` issues a refresh request exactly when
a stored expiry is present, nonzero, and earlier than `now + lead` — lead
`60000` ms for Google and `300000` ms for Outlook; otherwise (expiry absent,
zero, or at least `now + lead` away) it returns the held token set unchanged
without consulting the refresh API. -/
theorem c6_refresh_lead_windows (now : Int) (tokens : Tokens)
    (gapi : Except String Tokens) (oapi : Except String OutlookTokenResponse) :
    ((¬ ∃ d, tokens.expiry = some d ∧ d ≠ 0 ∧ d < now + 60000) →
      googleRefreshTokenIfNeeded now tokens gapi = .ok (tokens, false)) ∧
    (∀ d, tokens.expiry = some d → d ≠ 0 → d < now + 60000 →
      googleRefreshTokenIfNeeded now tokens gapi =
        (match gapi with
         | .ok credentials => .ok (credentials, true)
         | .error _ => .error "Failed to refresh Google OAuth token")) ∧
    ((¬ ∃ d, tokens.expiry = some d ∧ d ≠ 0 ∧ d < now + 300000) →
      outlookRefreshTokenIfNeeded now tokens oapi = .ok (tokens, false)) ∧
    (∀ d, tokens.expiry = some d → d ≠ 0 → d < now + 300000 →
      outlookRefreshTokenIfNeeded now tokens oapi =
        (match oapi with
         | .ok response =>
           .ok ({ access_token := response.accessToken
                  refresh_token := jsOr response.refreshToken tokens.refresh_token
                  expiry := some (now + (response.expiresOn - now)) }, true)
         | .error _ => .error "Failed to refresh Outlook OAuth token")) := by
  refine ⟨?_, ?_, ?_, ?_⟩
  · intro h
    have hg : googleRefreshGuard now tokens = false := by
      unfold googleRefreshGuard
      match htok : tokens.expiry with
      | none => rfl
      | some d =>
        simp only [Bool.and_eq_false_iff, decide_eq_false_iff_not, not_not]
        by_contra hc
        push_neg at hc
        exact h ⟨d, htok, hc.1, hc.2⟩
    simp [googleRefreshTokenIfNeeded, hg]
  · intro d hd h0 hlt
    have hg : googleRefreshGuard now tokens = true := by
      unfold googleRefreshGuard
      rw [hd]
      simp [h0, hlt]
    simp [googleRefreshTokenIfNeeded, hg]
  · intro h
    have hg : outlookRefreshGuard now tokens = false := by
      unfold outlookRefreshGuard
      match htok : tokens.expiry with
      | none => rfl
      | some d =>
        simp only [Bool.and_eq_false_iff, decide_eq_false_iff_not, not_not]
        by_contra hc
        push_neg at hc
        exact h ⟨d, htok, hc.1, hc.2⟩
    simp [outlookRefreshTokenIfNeeded, hg]
  · intro d hd h0 hlt
    have hg : outlookRefreshGuard now tokens = true := by
      unfold outlookRefreshGuard
      rw [hd]
      simp [h0, hlt]
    simp [outlookRefreshTokenIfNeeded, hg]

/-- C6 (witness): the amended theorem at concrete inputs — an expiry 1 ms
after the epoch is inside the 60 s window at `now = 0`, so the fresh
credentials are returned; an expiry far in the future is outside the 300 s
window, so Outlook returns the held token set unchanged. -/
theorem c6_refresh_lead_windows_witness :
    googleRefreshTokenIfNeeded 0
        { access_token := "a", refresh_token := none, expiry := some 1 }
        (.ok { access_token := "b", refresh_token := some "r2", expiry := some 7777 }) =
      .ok ({ access_token := "b", refresh_token := some "r2", expiry := some 7777 }, true) ∧
    outlookRefreshTokenIfNeeded 0
        { access_token := "a", refresh_token := none, expiry := some 900000 }
        (.error "network down") =
      .ok ({ access_token := "a", refresh_token := none, expiry := some 900000 }, false) := by
  constructor
  · have h := (c6_refresh_lead_windows 0
      { access_token := "a", refresh_token := none, expiry := some 1 }
      (.ok { access_token := "b", refresh_token := some "r2", expiry := some 7777 })
      (.error "unused")).2.1 1 rfl (by decide) (by decide)
    exact h
  · have h := (c6_refresh_lead_windows 0
      { access_token := "a", refresh_token := none, expiry := some 900000 }
      (.ok { access_token := "b", refresh_token := some "r2", expiry := some 7777 })
      (.error "network down")).2.2.1 (by rintro ⟨d, hd, h0, hlt⟩; simp at hd; omega)
    exact h

/-! ## The `/api/chat` endpoint and its tool-dispatch loop

`server.js` lines 489–672.  Oracles: the user's settings row, the decryption
result, both LLM completions, and the per-call Google Calendar API outcome
(`calApi k r` is the result of the `k`-th calendar API call of the request,
`r` being the issued request). -/

/-- Parsed `JSON.parse(toolCall.function.arguments)`: a JS object carrying
whichever of the three argument properties were present. -/
structure ParsedArgs where
  events : Option (List GEvent)
  updates : Option (List (String × GEvent))
  eventIds : Option (List String)
deriving DecidableEq, Repr

structure ToolCallMsg where
  id : String
  name : String
  args : ParsedArgs
deriving DecidableEq, Repr

structure AssistantMsg where
  content : Option String
  tool_calls : Option (List ToolCallMsg)
deriving DecidableEq, Repr

/-- An individual Google Calendar API request issued by the dispatch loop. -/
inductive CalRequest where
  | insert (event : GEvent)
  | patch (eventId : String) (eventData : GEvent)
  | del (eventId : String)
deriving DecidableEq, Repr

/-- A `{role:'tool', tool_call_id, content}` message; `content` is `none` when
`toolResult` was left `undefined`. -/
structure ToolMsg where
  tool_call_id : String
  content : Option String
deriving DecidableEq, Repr

/-- Minimal escaping performed by `JSON.stringify` on the embedded error
string (control-character escapes are not exercised here). -/
def jsonEscape (s : String) : String :=
  String.mk (s.data.foldr
    (fun c acc =>
      if c = '"' then '\\' :: '"' :: acc
      else if c = '\\' then '\\' :: '\\' :: acc
      else c :: acc) [])

/-- Embeds `JSON.stringify({success:true, <field>: n})`. -/
def okJson (field : String) (n : Nat) : String :=
  "\x7b\"success\":true,\"" ++ field ++ "\":" ++ toString n ++ "\x7d"

/-- Embeds `JSON.stringify({success:false, error: e})`. -/
def errJson (e : String) : String :=
  "\x7b\"success\":false,\"error\":\"" ++ jsonEscape e ++ "\"\x7d"

/-- Runs one tool call's batch of sequential calendar API calls starting at
call index `k`.  A `throw` from one call exits the inner `for` loop, so later
items of the same batch are not issued.  Returns the number of calls actually
issued and the first error, if any. -/
def runBatch (calApi : Nat → CalRequest → Except String Unit) (k : Nat) :
    List CalRequest → Nat × Option String
  | [] => (0, none)
  | r :: rs =>
    match calApi k r with
    | .ok _ =>
      let t := runBatch calApi (k + 1) rs
      (t.1 + 1, t.2)
    | .error e => (1, some e)

/-- One iteration of the dispatch `for` loop: given the index of the next
calendar API call, returns how many calls this tool call issued and the
`toolResult` content (`none` = `undefined`, which happens exactly for a tool
name outside the three known ones). -/
def execToolCall (calApi : Nat → CalRequest → Except String Unit) (k : Nat)
    (tc : ToolCallMsg) : Nat × Option String :=
  if tc.name = "create_calendar_event" then
    match tc.args.events with
    | some evs =>
      let r := runBatch calApi k (evs.map .insert)
      (r.1, some (match r.2 with
        | none => okJson "created" evs.length
        | some e => errJson e))
    | none => (0, some (errJson "args.events is not iterable"))
  else if tc.name = "update_calendar_event" then
    match tc.args.updates with
    | some us =>
      let r := runBatch calApi k (us.map fun u => .patch u.1 u.2)
      (r.1, some (match r.2 with
        | none => okJson "updated" us.length
        | some e => errJson e))
    | none => (0, some (errJson "args.updates is not iterable"))
  else if tc.name = "delete_calendar_events" then
    match tc.args.eventIds with
    | some ids =>
      let r := runBatch calApi k (ids.map .del)
      (r.1, some (match r.2 with
        | none => okJson "deleted" ids.length
        | some e => errJson e))
    | none => (0, some (errJson "args.eventIds is not iterable"))
  else
    (0, none)

structure DispatchState where
  k : Nat
  msgs : List ToolMsg
deriving DecidableEq, Repr

/-- The dispatch `for` loop over the tool calls: every iteration pushes a tool
message (the `toolMessages.push` is unconditional). -/
def runDispatchAux (calApi : Nat → CalRequest → Except String Unit)
    (st : DispatchState) : List ToolCallMsg → DispatchState
  | [] => st
  | tc :: rest =>
    let r := execToolCall calApi st.k tc
    runDispatchAux calApi { k := st.k + r.1, msgs := st.msgs ++ [⟨tc.id, r.2⟩] } rest

def runDispatch (calApi : Nat → CalRequest → Except String Unit)
    (tcs : List ToolCallMsg) : DispatchState :=
  runDispatchAux calApi ⟨0, []⟩ tcs

/-- A message in an LLM request. -/
inductive Msg where
  | system (content : String)
  | user (content : String)
  | assistant (m : AssistantMsg)
  | tool (tool_call_id : String) (content : Option String)
deriving DecidableEq, Repr

/-- The distinct `res.…json(…)` exits of the chat handler. -/
inductive ChatResponse where
  | unauthorized
  | forbidden (error message : String)
  | decryptError (error message : String)
  | serverError (error : String)
  | ok (message : AssistantMsg)
  | okWithTools (message : AssistantMsg)
deriving DecidableEq, Repr

/-- Observable outcome of one chat request: the HTTP response, how many LLM
completions were requested, how many calendar API calls were issued, and the
message list of the second LLM request if one was made. -/
structure ChatTrace where
  response : ChatResponse
  llmCalls : Nat
  calendarCalls : Nat
  secondLlmRequest : Option (List Msg)
deriving DecidableEq, Repr

/-- Stored `user_settings` row. -/
structure SettingsRow where
  user_id : Nat
  openrouter_api_key_encrypted : Option String
  openrouter_model : Option String
  encryption_iv : Option String
deriving DecidableEq, Repr

/-- JS guard `!settings || !settings.openrouter_api_key_encrypted`. -/
def missingApiKey (settings : Option SettingsRow) : Bool :=
  match settings with
  | none => true
  | some s =>
    match s.openrouter_api_key_encrypted with
    | none => true
    | some k => k = ""

/-- Embeds `app.post('/api/chat')` from the session check onwards.  `decryptResult`
is only consulted after the API-key guard passes, `llm1`/`llm2` are the two
OpenRouter completions, `calApi` the calendar API. -/
def chatHandler (userId : Option Nat) (settings : Option SettingsRow)
    (decryptResult : Except String String)
    (llm1 : Except String AssistantMsg)
    (calApi : Nat → CalRequest → Except String Unit)
    (llm2 : List Msg → Except String AssistantMsg)
    (systemPrompt : String) (history : List Msg) : ChatTrace :=
  match userId with
  | none => { response := .unauthorized, llmCalls := 0, calendarCalls := 0,
              secondLlmRequest := none }
  | some _ =>
    if missingApiKey settings then
      { response := .forbidden "OpenRouter API key not configured"
          "Please configure your OpenRouter API key in Settings before using the chat feature."
        llmCalls := 0, calendarCalls := 0, secondLlmRequest := none }
    else
      match decryptResult with
      | .error _ =>
        { response := .decryptError "Failed to decrypt API key"
            "Please re-configure your API key in Settings."
          llmCalls := 0, calendarCalls := 0, secondLlmRequest := none }
      | .ok _ =>
        match llm1 with
        | .error e =>
          { response := .serverError ("Failed to process chat request: " ++ e)
            llmCalls := 1, calendarCalls := 0, secondLlmRequest := none }
        | .ok assistantMessage =>
          match assistantMessage.tool_calls with
          | some tcs =>
            if tcs.length > 0 then
              let st := runDispatch calApi tcs
              let req2 := Msg.system systemPrompt :: history ++
                (Msg.assistant assistantMessage ::
                  st.msgs.map fun t => Msg.tool t.tool_call_id t.content)
              match llm2 req2 with
              | .error e =>
                { response := .serverError ("Failed to process chat request: " ++ e)
                  llmCalls := 2, calendarCalls := st.k, secondLlmRequest := some req2 }
              | .ok finalMessage =>
                { response := .okWithTools finalMessage
                  llmCalls := 2, calendarCalls := st.k, secondLlmRequest := some req2 }
            else
              { response := .ok assistantMessage, llmCalls := 1, calendarCalls := 0,
                secondLlmRequest := none }
          | none =>
            { response := .ok assistantMessage, llmCalls := 1, calendarCalls := 0,
              secondLlmRequest := none }

/-- The empty parsed-argument object and an event with no fields set, used as
concrete inputs below. -/
def emptyArgs : ParsedArgs := ⟨none, none, none⟩

def emptyGEvent : GEvent := ⟨none, none, none, none, none, none, none, none⟩

/-- The dispatch loop's accumulator: messages pushed so far are a prefix, and
the call counter does not depend on them. -/
theorem runDispatchAux_shift (calApi : Nat → CalRequest → Except String Unit)
    (tcs : List ToolCallMsg) :
    ∀ k ms, runDispatchAux calApi ⟨k, ms⟩ tcs =
      ⟨(runDispatchAux calApi ⟨k, []⟩ tcs).k,
       ms ++ (runDispatchAux calApi ⟨k, []⟩ tcs).msgs⟩ := by
  induction tcs with
  | nil => intro k ms; simp [runDispatchAux]
  | cons tc rest ih =>
    intro k ms
    simp only [runDispatchAux]
    rw [ih (k + (execToolCall calApi k tc).1)
          (ms ++ [(⟨tc.id, (execToolCall calApi k tc).2⟩ : ToolMsg)]),
        ih (k + (execToolCall calApi k tc).1)
          ([] ++ [(⟨tc.id, (execToolCall calApi k tc).2⟩ : ToolMsg)])]
    simp

/-! ## C5: zero tool calls -/

/-- C5: if the first LLM response has no `tool_calls`, or an empty
`tool_calls` array, the chat endpoint returns that assistant message
verbatim, performs no second LLM call and no calendar API call. -/
theorem c5_no_tool_calls (uid : Nat) (s : SettingsRow) (key apiKey sys : String)
    (hist : List Msg) (calApi : Nat → CalRequest → Except String Unit)
    (llm2 : List Msg → Except String AssistantMsg) (am : AssistantMsg)
    (hk : s.openrouter_api_key_encrypted = some key) (hk0 : key ≠ "")
    (htc : am.tool_calls = none ∨ am.tool_calls = some []) :
    chatHandler (some uid) (some s) (.ok apiKey) (.ok am) calApi llm2 sys hist =
      { response := .ok am, llmCalls := 1, calendarCalls := 0,
        secondLlmRequest := none } := by
  have hm : missingApiKey (some s) = false := by
    simp [missingApiKey, hk, hk0]
  rcases htc with h | h <;> simp [chatHandler, hm, h]

/-- C5 (witness): concrete run with an empty tool-call array. -/
theorem c5_no_tool_calls_witness :
    chatHandler (some 1) (some ⟨1, some "enc", none, some "iv"⟩) (.ok "key")
        (.ok { content := some "hello", tool_calls := some [] })
        (fun _ _ => .ok ()) (fun _ => .error "should not be called") "sys" [] =
      { response := .ok { content := some "hello", tool_calls := some [] }
        llmCalls := 1, calendarCalls := 0, secondLlmRequest := none } :=
  c5_no_tool_calls 1 ⟨1, some "enc", none, some "iv"⟩ "enc" "key" "sys" []
    (fun _ _ => .ok ()) (fun _ => .error "should not be called")
    { content := some "hello", tool_calls := some [] }
    rfl (by decide) (Or.inr rfl)

/-! ## C7: missing API key -/

/-- C7: an authenticated user whose settings row is absent or whose encrypted
OpenRouter key is not stored gets a 403 forbidden response instructing them to
configure the key, with zero LLM completions and zero calendar API calls. -/
theorem c7_forbidden_without_key (uid : Nat) (settings : Option SettingsRow)
    (decryptResult : Except String String) (llm1 : Except String AssistantMsg)
    (calApi : Nat → CalRequest → Except String Unit)
    (llm2 : List Msg → Except String AssistantMsg) (sys : String) (hist : List Msg)
    (h : settings = none ∨
      ∃ s, settings = some s ∧ s.openrouter_api_key_encrypted = none) :
    chatHandler (some uid) settings decryptResult llm1 calApi llm2 sys hist =
      { response := .forbidden "OpenRouter API key not configured"
          "Please configure your OpenRouter API key in Settings before using the chat feature."
        llmCalls := 0, calendarCalls := 0, secondLlmRequest := none } := by
  have hm : missingApiKey settings = true := by
    rcases h with h | ⟨s, hs, hkey⟩
    · simp [missingApiKey, h]
    · simp [missingApiKey, hs, hkey]
  simp [chatHandler, hm]

/-- C7 (witness): a user with a settings row but no stored key is refused
before any LLM or calendar work. -/
theorem c7_forbidden_without_key_witness :
    chatHandler (some 7) (some ⟨7, none, some "anthropic/claude-3.5-sonnet", none⟩)
        (.error "no key to decrypt") (.error "llm should not be called")
        (fun _ _ => .error "calendar should not be called")
        (fun _ => .error "llm should not be called") "sys" [] =
      { response := .forbidden "OpenRouter API key not configured"
          "Please configure your OpenRouter API key in Settings before using the chat feature."
        llmCalls := 0, calendarCalls := 0, secondLlmRequest := none } :=
  c7_forbidden_without_key 7 (some ⟨7, none, some "anthropic/claude-3.5-sonnet", none⟩)
    (.error "no key to decrypt") (.error "llm should not be called")
    (fun _ _ => .error "calendar should not be called")
    (fun _ => .error "llm should not be called") "sys" []
    (Or.inr ⟨_, rfl, rfl⟩)

/-! ## C3: partial failure across tool calls -/

/-- C3: with two `create_calendar_event` tool calls where the provider call
for the first throws and the one for the second succeeds, the first failure is
caught into a `{success:false, error}` tool result, the second call is still
executed (both calendar API calls are issued), and the second LLM request
contains both the failure result and the success count. -/
theorem c3_partial_failure (uid : Nat) (s : SettingsRow) (key apiKey sys : String)
    (hist : List Msg) (e : String) (ev1 ev2 : GEvent) (id1 id2 : String)
    (calApi : Nat → CalRequest → Except String Unit)
    (llm2 : List Msg → Except String AssistantMsg) (final : AssistantMsg)
    (hk : s.openrouter_api_key_encrypted = some key) (hk0 : key ≠ "")
    (hc0 : calApi 0 (.insert ev1) = .error e)
    (hc1 : calApi 1 (.insert ev2) = .ok ())
    (hllm2 : ∀ req, llm2 req = .ok final) :
    chatHandler (some uid) (some s) (.ok apiKey)
        (.ok { content := none
               tool_calls := some
                 [⟨id1, "create_calendar_event", ⟨some [ev1], none, none⟩⟩,
                  ⟨id2, "create_calendar_event", ⟨some [ev2], none, none⟩⟩] })
        calApi llm2 sys hist =
      { response := .okWithTools final
        llmCalls := 2
        calendarCalls := 2
        secondLlmRequest := some (Msg.system sys :: hist ++
          [Msg.assistant
             { content := none
               tool_calls := some
                 [⟨id1, "create_calendar_event", ⟨some [ev1], none, none⟩⟩,
                  ⟨id2, "create_calendar_event", ⟨some [ev2], none, none⟩⟩] },
           Msg.tool id1 (some (errJson e)),
           Msg.tool id2 (some (okJson "created" 1))]) } := by
  have hm : missingApiKey (some s) = false := by
    simp [missingApiKey, hk, hk0]
  simp [chatHandler, hm, runDispatch, runDispatchAux, execToolCall, runBatch,
    hc0, hc1, hllm2]

/-- C3 (witness): the partial-failure run at concrete inputs. -/
theorem c3_partial_failure_witness :
    chatHandler (some 1) (some ⟨1, some "enc", none, some "iv"⟩) (.ok "key")
        (.ok { content := none
               tool_calls := some
                 [⟨"t1", "create_calendar_event", ⟨some [emptyGEvent], none, none⟩⟩,
                  ⟨"t2", "create_calendar_event", ⟨some [emptyGEvent], none, none⟩⟩] })
        (fun k _ => if k = 0 then .error "boom" else .ok ())
        (fun _ => .ok { content := some "summary", tool_calls := none }) "sys" [] =
      { response := .okWithTools { content := some "summary", tool_calls := none }
        llmCalls := 2
        calendarCalls := 2
        secondLlmRequest := some
          [Msg.system "sys",
           Msg.assistant
             { content := none
               tool_calls := some
                 [⟨"t1", "create_calendar_event", ⟨some [emptyGEvent], none, none⟩⟩,
                  ⟨"t2", "create_calendar_event", ⟨some [emptyGEvent], none, none⟩⟩] },
           Msg.tool "t1" (some (errJson "boom")),
           Msg.tool "t2" (some (okJson "created" 1))] } :=
  c3_partial_failure 1 ⟨1, some "enc", none, some "iv"⟩ "enc" "key" "sys" []
    "boom" emptyGEvent emptyGEvent "t1" "t2"
    (fun k _ => if k = 0 then .error "boom" else .ok ())
    (fun _ => .ok { content := some "summary", tool_calls := none })
    { content := some "summary", tool_calls := none }
    rfl (by decide) rfl rfl (fun _ => rfl)

/-! ## C4: unrecognized tool names -/

/-- C4 (counterexample): the claim says a tool call with an unknown name gets
*no* tool-result message.  In the code `toolMessages.push` is unconditional:
`toolResult` is simply left `undefined`, so a `{role:'tool', tool_call_id,
content: undefined}` message *is* emitted for it. -/
theorem c4_unknown_tool_counterexample :
    (runDispatch (fun _ _ => .ok ())
        [⟨"t1", "web_search", emptyArgs⟩]).msgs = [⟨"t1", none⟩] ∧
    (runDispatch (fun _ _ => .ok ())
        [⟨"t1", "web_search", emptyArgs⟩]).msgs ≠ [] := by
  constructor
  · rfl
  · decide

/-- C4 (amended): for a tool call whose name is none of the three declared
tools, the dispatch loop performs no calendar API call and leaves
`toolResult` undefined, but still pushes a tool-result message (with
`undefined` content) for it, and processes the remaining tool calls exactly
as it would have without it. -/
theorem c4_unknown_tool_amended (calApi : Nat → CalRequest → Except String Unit)
    (tc : ToolCallMsg) (rest : List ToolCallMsg)
    (h1 : tc.name ≠ "create_calendar_event")
    (h2 : tc.name ≠ "update_calendar_event")
    (h3 : tc.name ≠ "delete_calendar_events") :
    (∀ k, execToolCall calApi k tc = (0, none)) ∧
    (runDispatch calApi (tc :: rest)).k = (runDispatch calApi rest).k ∧
    (runDispatch calApi (tc :: rest)).msgs =
      ⟨tc.id, none⟩ :: (runDispatch calApi rest).msgs := by
  have hexec : ∀ k, execToolCall calApi k tc = (0, none) := by
    intro k
    simp [execToolCall, h1, h2, h3]
  refine ⟨hexec, ?_, ?_⟩
  · simp only [runDispatch, runDispatchAux, hexec]
    rw [runDispatchAux_shift calApi rest (0 + 0) ([] ++ [(⟨tc.id, none⟩ : ToolMsg)])]
  · simp only [runDispatch, runDispatchAux, hexec]
    rw [runDispatchAux_shift calApi rest (0 + 0) ([] ++ [(⟨tc.id, none⟩ : ToolMsg)])]
    simp

/-- C4 (witness): an unknown tool followed by a delete call — the unknown one
contributes a content-less message and no API call; the delete still runs. -/
theorem c4_unknown_tool_amended_witness :
    (runDispatch (fun _ _ => .ok ())
        [⟨"t1", "web_search", emptyArgs⟩,
         ⟨"t2", "delete_calendar_events", ⟨none, none, some ["ev9"]⟩⟩]).msgs =
      [⟨"t1", none⟩, ⟨"t2", some (okJson "deleted" 1)⟩] := by
  have h := c4_unknown_tool_amended (fun _ _ => .ok ())
    ⟨"t1", "web_search", emptyArgs⟩
    [⟨"t2", "delete_calendar_events", ⟨none, none, some ["ev9"]⟩⟩]
    (by decide) (by decide) (by decide)
  rw [h.2.2]
  rfl

/-! ## C2: error wrapping and leaking -/

/-- C2 (counterexample): the claim requires every calendar call in the chat
dispatch loop to report failures with a *fixed* provider-scoped message whose
content never includes the original error.  The inner catch instead folds the
original `error.message` verbatim into the `{success:false, error}` tool
result, which the endpoint places into the message list of its second LLM
request — two different underlying errors produce two different outgoing
requests, each carrying the raw message text. -/
theorem c2_error_leak_counterexample :
    (chatHandler (some 1) (some ⟨1, some "enc", none, some "iv"⟩) (.ok "key")
        (.ok { content := none
               tool_calls := some
                 [⟨"t1", "create_calendar_event", ⟨some [emptyGEvent], none, none⟩⟩] })
        (fun _ _ => .error "SECRET_api_failure_A")
        (fun _ => .ok { content := some "done", tool_calls := none })
        "sys" []).secondLlmRequest =
      some [Msg.system "sys",
            Msg.assistant
              { content := none
                tool_calls := some
                  [⟨"t1", "create_calendar_event", ⟨some [emptyGEvent], none, none⟩⟩] },
            Msg.tool "t1"
              (some "\x7b\"success\":false,\"error\":\"SECRET_api_failure_A\"\x7d")] ∧
    (chatHandler (some 1) (some ⟨1, some "enc", none, some "iv"⟩) (.ok "key")
        (.ok { content := none
               tool_calls := some
                 [⟨"t1", "create_calendar_event", ⟨some [emptyGEvent], none, none⟩⟩] })
        (fun _ _ => .error "SECRET_api_failure_B")
        (fun _ => .ok { content := some "done", tool_calls := none })
        "sys" []).secondLlmRequest ≠
      (chatHandler (some 1) (some ⟨1, some "enc", none, some "iv"⟩) (.ok "key")
        (.ok { content := none
               tool_calls := some
                 [⟨"t1", "create_calendar_event", ⟨some [emptyGEvent], none, none⟩⟩] })
        (fun _ _ => .error "SECRET_api_failure_A")
        (fun _ => .ok { content := some "done", tool_calls := none })
        "sys" []).secondLlmRequest := by
  constructor
  · rfl
  · decide

/-- C2 (amended): every operation of the two `CalendarProvider` classes
(`listCalendars`, `getEvents`, `createEvent`, `updateEvent`, `deleteEvent`,
`refreshTokenIfNeeded`) re-throws an underlying API failure with its fixed
provider-scoped message, independent of the original error's content; the
calendar calls made directly inside the chat dispatch loop, however, report
the original error's message text verbatim inside the `{success:false,
error}` tool result, and any error reaching the chat endpoint's outer catch —
here, a failure of either LLM completion — is returned to the client in a 500
response whose error field is the literal prefix followed by the original
`error.message`. -/
theorem c2_fixed_provider_messages (e tcid : String) (ev : GEvent) :
    googleListCalendars (α := Unit) (.error e) =
      .error "Failed to fetch calendars from Google" ∧
    googleGetEvents (α := Unit) (.error e) =
      .error "Failed to fetch events from Google Calendar" ∧
    googleCreateEvent (α := Unit) (.error e) =
      .error "Failed to create event in Google Calendar" ∧
    googleUpdateEvent (α := Unit) (.error e) =
      .error "Failed to update event in Google Calendar" ∧
    googleDeleteEvent (.error e) =
      .error "Failed to delete event from Google Calendar" ∧
    googleRefreshTokenIfNeeded 1000000
        { access_token := "a", refresh_token := some "r", expiry := some 1 }
        (.error e) =
      .error "Failed to refresh Google OAuth token" ∧
    outlookListCalendars (.error e) =
      .error "Failed to fetch calendars from Outlook" ∧
    outlookGetEvents (.error e) =
      .error "Failed to fetch events from Outlook Calendar" ∧
    outlookCreateEvent ev (fun _ => .error e) =
      .error "Failed to create event in Outlook Calendar" ∧
    outlookUpdateEvent ev (fun _ => .error e) =
      .error "Failed to update event in Outlook Calendar" ∧
    outlookDeleteEvent (.error e) =
      .error "Failed to delete event from Outlook Calendar" ∧
    outlookRefreshTokenIfNeeded 1000000
        { access_token := "a", refresh_token := some "r", expiry := some 1 }
        (.error e) =
      .error "Failed to refresh Outlook OAuth token" ∧
    (runDispatch (fun _ _ => .error e)
        [⟨tcid, "create_calendar_event", ⟨some [ev], none, none⟩⟩]).msgs =
      [⟨tcid, some (errJson e)⟩] ∧
    (chatHandler (some 1) (some ⟨1, some "enc", none, some "iv"⟩) (.ok "key")
        (.error e) (fun _ _ => .ok ())
        (fun _ => .ok { content := some "done", tool_calls := none })
        "sys" []).response =
      .serverError ("Failed to process chat request: " ++ e) ∧
    (chatHandler (some 1) (some ⟨1, some "enc", none, some "iv"⟩) (.ok "key")
        (.ok { content := none
               tool_calls := some [⟨tcid, "create_calendar_event",
                 ⟨some [ev], none, none⟩⟩] })
        (fun _ _ => .ok ()) (fun _ => .error e) "sys" []).response =
      .serverError ("Failed to process chat request: " ++ e) := by
  refine ⟨rfl, rfl, rfl, rfl, rfl, ?_, rfl, rfl,
    ?_, ?_, rfl, ?_, ?_, rfl, rfl⟩
  · simp [googleRefreshTokenIfNeeded, googleRefreshGuard]
  · simp [outlookCreateEvent]
  · simp [outlookUpdateEvent]
  · simp [outlookRefreshTokenIfNeeded, outlookRefreshGuard]
  · simp [runDispatch, runDispatchAux, execToolCall, runBatch]

/-! ## Database helpers (`backend/db/connection.js`)

The PostgreSQL store is modelled as in-memory lists of rows; `nextId` is the
`users.id` serial counter.  `google_id` is UNIQUE in the schema, which the
theorems assume as a well-formedness hypothesis on the starting state. -/

structure UserRow where
  id : Nat
  google_id : String
  email : String
  name : String
deriving DecidableEq, Repr

structure Db where
  users : List UserRow
  user_settings : List SettingsRow
  nextId : Nat
deriving DecidableEq, Repr

/-- Embeds `findOrCreateUser(googleId, email, name)`: SELECT by `google_id`; if found
UPDATE email/name (RETURNING the row), else INSERT the user and an empty
`user_settings` row, all in one transaction. -/
def findOrCreateUser (googleId email name : String) (db : Db) : Db × Option UserRow :=
  match db.users.find? (fun u => u.google_id == googleId) with
  | some _ =>
    let users' := db.users.map fun u =>
      if u.google_id == googleId then { u with email := email, name := name } else u
    (⟨users', db.user_settings, db.nextId⟩,
     users'.find? (fun u => u.google_id == googleId))
  | none =>
    let row : UserRow := ⟨db.nextId, googleId, email, name⟩
    (⟨db.users ++ [row],
      db.user_settings ++ [⟨db.nextId, none, none, none⟩],
      db.nextId + 1⟩,
     some row)

/-- Embeds `updateUserSettings`: sets the key, model and IV columns of the user's
settings row to the given values (RETURNING the row). -/
def updateUserSettings (userId : Nat) (openrouterApiKeyEncrypted : Option String)
    (openrouterModel : Option String) (encryptionIv : Option String) (db : Db) :
    Db × Option SettingsRow :=
  let settings' := db.user_settings.map fun s =>
    if s.user_id == userId then
      { s with openrouter_api_key_encrypted := openrouterApiKeyEncrypted
               openrouter_model := openrouterModel
               encryption_iv := encryptionIv }
    else s
  (⟨db.users, settings', db.nextId⟩, settings'.find? (fun s => s.user_id == userId))

/-- Embeds `deleteUserApiKey`: NULLs the key and IV columns together. -/
def deleteUserApiKey (userId : Nat) (db : Db) : Db × Option SettingsRow :=
  let settings' := db.user_settings.map fun s =>
    if s.user_id == userId then
      { s with openrouter_api_key_encrypted := none, encryption_iv := none }
    else s
  (⟨db.users, settings', db.nextId⟩, settings'.find? (fun s => s.user_id == userId))

/-- Helper: `find?` skips a prefix containing no match. -/
theorem find?_append_of_none {α : Type} (p : α → Bool) (l1 l2 : List α)
    (h : l1.find? p = none) : (l1 ++ l2).find? p = l2.find? p := by
  induction l1 with
  | nil => rfl
  | cons a t ih =>
    cases hpa : p a with
    | true => simp [List.find?, hpa] at h
    | false =>
      simp only [List.find?, hpa] at h
      simpa [List.find?, hpa] using ih h

/-- The SQL UPDATE of `findOrCreateUser` leaves rows without the target
`google_id` untouched. -/
theorem map_update_of_no_match (googleId email name : String) (l : List UserRow)
    (h : ∀ u ∈ l, (u.google_id == googleId) = false) :
    (l.map fun u =>
      if u.google_id == googleId then { u with email := email, name := name }
      else u) = l := by
  induction l with
  | nil => rfl
  | cons a t ih =>
    have ha : (a.google_id == googleId) = false := h a (List.mem_cons_self a t)
    rw [List.map_cons, if_neg (by simp [ha]),
      ih fun u hu => h u (List.mem_cons_of_mem a hu)]

/-- Filtering with an everywhere-false predicate yields nothing. -/
theorem filter_of_false {α : Type} (p : α → Bool) (l : List α)
    (h : ∀ x ∈ l, p x = false) : l.filter p = [] := by
  induction l with
  | nil => rfl
  | cons a t ih =>
    simp [List.filter, h a (by simp),
      ih fun x hx => h x (List.mem_cons_of_mem a hx)]

/-! ## C8: idempotent find-or-create -/

/-- C8: calling `findOrCreateUser` twice with the same `(googleId, email,
name)` on a store that does not yet contain that `googleId` leaves exactly one
`users` row with that `googleId` and exactly one `user_settings` row for that
user; the first call inserts both rows, the second call performs its UPDATE
but inserts nothing and in fact leaves the store unchanged, and both calls
return the same user row. -/
theorem c8_findOrCreateUser_idempotent (googleId email name : String) (db : Db)
    (hfresh : ∀ u ∈ db.users, (u.google_id == googleId) = false)
    (hsets : ∀ s ∈ db.user_settings, (s.user_id == db.nextId) = false) :
    (((findOrCreateUser googleId email name
        (findOrCreateUser googleId email name db).1).1.users.filter
        (fun u => u.google_id == googleId)).length = 1) ∧
    (((findOrCreateUser googleId email name
        (findOrCreateUser googleId email name db).1).1.user_settings.filter
        (fun s => s.user_id == db.nextId)).length = 1) ∧
    (findOrCreateUser googleId email name db).1.users.length = db.users.length + 1 ∧
    (findOrCreateUser googleId email name db).1.user_settings.length =
      db.user_settings.length + 1 ∧
    (findOrCreateUser googleId email name
        (findOrCreateUser googleId email name db).1).1 =
      (findOrCreateUser googleId email name db).1 ∧
    (findOrCreateUser googleId email name db).2 =
      some ⟨db.nextId, googleId, email, name⟩ ∧
    (findOrCreateUser googleId email name
        (findOrCreateUser googleId email name db).1).2 =
      some ⟨db.nextId, googleId, email, name⟩ := by
  have h1 : db.users.find? (fun u => u.google_id == googleId) = none :=
    List.find?_eq_none.mpr fun u hu => by simp [hfresh u hu]
  have step1 : findOrCreateUser googleId email name db =
      (⟨db.users ++ [⟨db.nextId, googleId, email, name⟩],
        db.user_settings ++ [⟨db.nextId, none, none, none⟩], db.nextId + 1⟩,
       some ⟨db.nextId, googleId, email, name⟩) := by
    simp only [findOrCreateUser, h1]
  have h2 : (db.users ++ [(⟨db.nextId, googleId, email, name⟩ : UserRow)]).find?
      (fun u => u.google_id == googleId) =
      some ⟨db.nextId, googleId, email, name⟩ := by
    rw [find?_append_of_none _ _ _ h1]
    simp [List.find?]
  have hmap : ((db.users ++ [(⟨db.nextId, googleId, email, name⟩ : UserRow)]).map
      fun u => if u.google_id == googleId then
        { u with email := email, name := name } else u) =
      db.users ++ [⟨db.nextId, googleId, email, name⟩] := by
    rw [List.map_append, map_update_of_no_match googleId email name db.users hfresh]
    simp
  have step2 : findOrCreateUser googleId email name
      (⟨db.users ++ [⟨db.nextId, googleId, email, name⟩],
        db.user_settings ++ [⟨db.nextId, none, none, none⟩], db.nextId + 1⟩ : Db) =
      (⟨db.users ++ [⟨db.nextId, googleId, email, name⟩],
        db.user_settings ++ [⟨db.nextId, none, none, none⟩], db.nextId + 1⟩,
       some ⟨db.nextId, googleId, email, name⟩) := by
    simp only [findOrCreateUser, h2, hmap]
  refine ⟨?_, ?_, ?_, ?_, ?_, ?_, ?_⟩ <;>
    simp only [step1, step2]
  · rw [List.filter_append, filter_of_false _ _ hfresh]
    simp [List.filter]
  · rw [List.filter_append, filter_of_false _ _ hsets]
    simp [List.filter]
  · simp
  · simp

/-- C8 (witness): two calls on the empty store. -/
theorem c8_findOrCreateUser_idempotent_witness :
    (((findOrCreateUser "g123" "a@b.c" "Ada"
        (findOrCreateUser "g123" "a@b.c" "Ada" ⟨[], [], 1⟩).1).1.users.filter
        (fun u => u.google_id == "g123")).length = 1) ∧
    (((findOrCreateUser "g123" "a@b.c" "Ada"
        (findOrCreateUser "g123" "a@b.c" "Ada" ⟨[], [], 1⟩).1).1.user_settings.filter
        (fun s => s.user_id == (⟨[], [], 1⟩ : Db).nextId)).length = 1) := by
  have h := c8_findOrCreateUser_idempotent "g123" "a@b.c" "Ada" ⟨[], [], 1⟩
    (by intro u hu; simp at hu) (by intro s hs; simp at hs)
  exact ⟨h.1, h.2.1⟩

/-! ## C10: key/IV nullability invariant -/

/-- The `user_settings` invariant: the encrypted key column is non-NULL
exactly when the IV column is. -/
def settingsKeyIvInvariant (db : Db) : Prop :=
  ∀ s ∈ db.user_settings,
    s.openrouter_api_key_encrypted.isSome = s.encryption_iv.isSome

instance (db : Db) : Decidable (settingsKeyIvInvariant db) := by
  unfold settingsKeyIvInvariant
  infer_instance

/-- C10: both `user_settings` mutations preserve the invariant that
`openrouter_api_key_encrypted` is non-NULL iff `encryption_iv` is:
`updateUserSettings` — invoked by the settings endpoint with the two non-null
outputs of `encryptApiKey` — sets both columns together, and
`deleteUserApiKey` NULLs both together. -/
theorem c10_settings_invariant_preserved (db : Db) (u : Nat) (k m i : String)
    (hinv : settingsKeyIvInvariant db) :
    settingsKeyIvInvariant (updateUserSettings u (some k) (some m) (some i) db).1 ∧
    settingsKeyIvInvariant (deleteUserApiKey u db).1 := by
  constructor
  · intro s hs
    simp only [updateUserSettings, List.mem_map] at hs
    obtain ⟨s0, hs0, rfl⟩ := hs
    by_cases hu : (s0.user_id == u) = true
    · simp [hu]
    · simp only [hu, if_false]
      exact hinv s0 hs0
  · intro s hs
    simp only [deleteUserApiKey, List.mem_map] at hs
    obtain ⟨s0, hs0, rfl⟩ := hs
    by_cases hu : (s0.user_id == u) = true
    · simp [hu]
    · simp only [hu, if_false]
      exact hinv s0 hs0

/-- C10 (witness): a store with one configured and one empty settings row. -/
theorem c10_settings_invariant_preserved_witness :
    settingsKeyIvInvariant
      (updateUserSettings 1 (some "enc") (some "model") (some "iv")
        ⟨[], [⟨1, none, none, none⟩, ⟨2, some "e2", some "m2", some "i2"⟩], 3⟩).1 ∧
    settingsKeyIvInvariant
      (deleteUserApiKey 1
        ⟨[], [⟨1, none, none, none⟩, ⟨2, some "e2", some "m2", some "i2"⟩], 3⟩).1 :=
  c10_settings_invariant_preserved
    ⟨[], [⟨1, none, none, none⟩, ⟨2, some "e2", some "m2", some "i2"⟩], 3⟩
    1 "enc" "model" "iv" (by decide)

/-! ## API-key encryption (`backend/utils/encryption.js`)

Byte buffers are `List Nat` with entries below 256; plaintext is its UTF-8
byte sequence.  Node's AES-256-CBC cipher pair (`createCipheriv` /
`createDecipheriv` with `update`/`final`) is external library code and is
modelled as a pair of oracles `cipher`/`decipher : key → iv → data → data`;
the repository's own work — hex encoding of key, IV and ciphertext, key
validation, the falsiness guards, and the error wrapping — is embedded
exactly. -/

/-- Lower-case hex digit for a nibble (Node buffers stringify to lower-case
hex): codepoint 48 is the zero digit, 87 + 10 the letter a. -/
def hexDigit (n : Nat) : Char :=
  Char.ofNat (if n < 10 then 48 + n else 87 + n)

def hexEncodeChars : List Nat → List Char
  | [] => []
  | b :: bs => hexDigit (b / 16) :: hexDigit (b % 16) :: hexEncodeChars bs

/-- Embeds `buffer.toString('hex')`. -/
def hexEncode (bs : List Nat) : String := String.mk (hexEncodeChars bs)

/-- Numeric value of one hex character (decimal digits, then both letter
cases), `none` for anything else. -/
def hexVal (c : Char) : Option Nat :=
  if 48 ≤ c.toNat ∧ c.toNat ≤ 57 then some (c.toNat - 48)
  else if 97 ≤ c.toNat ∧ c.toNat ≤ 102 then some (c.toNat - 87)
  else if 65 ≤ c.toNat ∧ c.toNat ≤ 70 then some (c.toNat - 55)
  else none

def hexDecodeChars : List Char → List Nat
  | c1 :: c2 :: rest =>
    match hexVal c1, hexVal c2 with
    | some h, some l => (h * 16 + l) :: hexDecodeChars rest
    | _, _ => []
  | _ => []

/-- Embeds `Buffer.from(s, 'hex')`: pairs of hex digits, stopping at the first
invalid or incomplete pair. -/
def hexDecode (s : String) : List Nat := hexDecodeChars s.data

/-- Embeds `getEncryptionKey()`: reads the env var, requires a 32-byte hex key. -/
def getEncryptionKey (envKey : Option String) : Except String (List Nat) :=
  match envKey with
  | none => .error "ENCRYPTION_KEY environment variable is not set"
  | some k =>
    if k = "" then .error "ENCRYPTION_KEY environment variable is not set"
    else
      if (hexDecode k).length ≠ 32 then
        .error "ENCRYPTION_KEY must be 32 bytes (64 hex characters). Generate with: openssl rand -hex 32"
      else .ok (hexDecode k)

structure EncryptedKey where
  encrypted : String
  iv : String
deriving DecidableEq, Repr

/-- Embeds `encryptApiKey(plaintext)`: guards against empty input, draws a random
16-byte IV (here a parameter), encrypts with the env key, and returns the
hex-encoded ciphertext and IV; any failure inside the `try` is re-thrown as
the fixed message. -/
def encryptApiKey (cipher : List Nat → List Nat → List Nat → List Nat)
    (envKey : Option String) (ivBytes : List Nat) (plaintext : List Nat) :
    Except String EncryptedKey :=
  if plaintext = [] then .error "Cannot encrypt empty value"
  else
    match getEncryptionKey envKey with
    | .error _ => .error "Failed to encrypt API key"
    | .ok key =>
      if ivBytes.length ≠ 16 then .error "Failed to encrypt API key"
      else .ok ⟨hexEncode (cipher key ivBytes plaintext), hexEncode ivBytes⟩

/-- Embeds `decryptApiKey(encrypted, ivHex)`: guards against missing inputs, decodes
the IV and ciphertext from hex and decrypts with the env key; failures inside
the `try` are re-thrown as the fixed message. -/
def decryptApiKey (decipher : List Nat → List Nat → List Nat → List Nat)
    (envKey : Option String) (encrypted ivHex : String) : Except String (List Nat) :=
  if encrypted = "" ∨ ivHex = "" then
    .error "Cannot decrypt: missing encrypted data or IV"
  else
    match getEncryptionKey envKey with
    | .error _ => .error "Failed to decrypt API key"
    | .ok key =>
      if (hexDecode ivHex).length ≠ 16 then .error "Failed to decrypt API key"
      else .ok (decipher key (hexDecode ivHex) (hexDecode encrypted))

theorem hexVal_hexDigit (n : Nat) (h : n < 16) : hexVal (hexDigit n) = some n := by
  interval_cases n <;> rfl

theorem hexDecodeChars_hexEncodeChars (bs : List Nat) (h : ∀ b ∈ bs, b < 256) :
    hexDecodeChars (hexEncodeChars bs) = bs := by
  induction bs with
  | nil => rfl
  | cons b bs ih =>
    have hb : b < 256 := h b (List.mem_cons_self b bs)
    have hdiv : b / 16 < 16 := Nat.div_lt_of_lt_mul (by omega)
    have hmod : b % 16 < 16 := Nat.mod_lt b (by omega)
    simp only [hexEncodeChars, hexDecodeChars, hexVal_hexDigit _ hdiv,
      hexVal_hexDigit _ hmod]
    rw [ih fun x hx => h x (List.mem_cons_of_mem b hx)]
    congr 1
    omega

theorem hexDecode_hexEncode (bs : List Nat) (h : ∀ b ∈ bs, b < 256) :
    hexDecode (hexEncode bs) = bs :=
  hexDecodeChars_hexEncodeChars bs h

theorem hexEncode_ne_empty (bs : List Nat) (h : bs ≠ []) : hexEncode bs ≠ "" := by
  intro hc
  have : hexEncodeChars bs = [] := congrArg String.data hc
  match bs, h with
  | b :: bs, _ => simp [hexEncodeChars] at this

/-! ## C9: encrypt/decrypt round trip -/

/-- C9: when a valid 32-byte `ENCRYPTION_KEY` is configured and the cipher
pair inverts (as AES-256-CBC with PKCS#7 padding does for a matching key and
IV), `decryptApiKey` applied to the `{encrypted, iv}` output of
`encryptApiKey` recovers every non-empty plaintext exactly: the repository
passes the same derived key to both sides and hex-encodes/decodes the IV and
ciphertext losslessly. -/
theorem c9_encrypt_decrypt_roundtrip
    (cipher decipher : List Nat → List Nat → List Nat → List Nat)
    (envKeyStr : String) (iv p : List Nat)
    (hinv : ∀ key ivb pt, key.length = 32 → ivb.length = 16 →
      decipher key ivb (cipher key ivb pt) = pt)
    (henv : envKeyStr ≠ "")
    (hkeylen : (hexDecode envKeyStr).length = 32)
    (hp : p ≠ [])
    (hivlen : iv.length = 16)
    (hivb : ∀ b ∈ iv, b < 256)
    (hctb : ∀ b ∈ cipher (hexDecode envKeyStr) iv p, b < 256)
    (hctne : cipher (hexDecode envKeyStr) iv p ≠ []) :
    encryptApiKey cipher (some envKeyStr) iv p =
      .ok ⟨hexEncode (cipher (hexDecode envKeyStr) iv p), hexEncode iv⟩ ∧
    decryptApiKey decipher (some envKeyStr)
      (hexEncode (cipher (hexDecode envKeyStr) iv p)) (hexEncode iv) = .ok p := by
  have hkey : getEncryptionKey (some envKeyStr) = .ok (hexDecode envKeyStr) := by
    simp [getEncryptionKey, henv, hkeylen]
  constructor
  · simp [encryptApiKey, hp, hkey, hivlen]
  · have hne1 : hexEncode (cipher (hexDecode envKeyStr) iv p) ≠ "" :=
      hexEncode_ne_empty _ hctne
    have hne2 : hexEncode iv ≠ "" :=
      hexEncode_ne_empty _ (by intro hc; rw [hc] at hivlen; simp at hivlen)
    have hdec_iv : hexDecode (hexEncode iv) = iv := hexDecode_hexEncode iv hivb
    have hdec_ct : hexDecode (hexEncode (cipher (hexDecode envKeyStr) iv p)) =
        cipher (hexDecode envKeyStr) iv p := hexDecode_hexEncode _ hctb
    simp only [decryptApiKey, hne1, hne2, or_self, if_false, hkey, hdec_iv,
      hdec_ct, hivlen]
    simp [hinv _ _ _ hkeylen hivlen]

/-- C9 (witness): the round trip at the identity cipher pair, a 64-zero hex
key, a zero IV and the plaintext bytes of `"hi"`. -/
theorem c9_encrypt_decrypt_roundtrip_witness :
    encryptApiKey (fun _ _ pt => pt)
      (some "0000000000000000000000000000000000000000000000000000000000000000")
      (List.replicate 16 0) [104, 105] =
      .ok ⟨hexEncode [104, 105], hexEncode (List.replicate 16 0)⟩ ∧
    decryptApiKey (fun _ _ ct => ct)
      (some "0000000000000000000000000000000000000000000000000000000000000000")
      (hexEncode [104, 105]) (hexEncode (List.replicate 16 0)) = .ok [104, 105] :=
  c9_encrypt_decrypt_roundtrip (fun _ _ pt => pt) (fun _ _ ct => ct)
    "0000000000000000000000000000000000000000000000000000000000000000"
    (List.replicate 16 0) [104, 105]
    (fun _ _ _ _ _ => rfl) (by decide) (by decide) (by decide) (by decide)
    (by decide) (by decide) (by decide)

end AiPlanner
